import Mathlib

set_option maxHeartbeats 1000000
set_option maxRecDepth 16384

deriving instance DecidableEq for Except

/-! Verification development for the AWS cluster-api provider's instance
reconciliation engine: the tags package (Map, Equals, Difference) and the
EC2 service (instance finders, provisioner, reconcile orchestrator and
lifecycle operations), shallowly embedded with an explicit environment of
backend responses and a trace of backend calls. -/

namespace AWSModel

/-- Lookup of a key in an association list of tag bindings: the model of
indexing a Go map whose keys are unique. -/
def lookupTag : List (String × String) → String → Option String
  | [], _ => none
  | p :: rest, key => if p.1 = key then some p.2 else lookupTag rest key

namespace tags

/-- Go type Map map[string]string. A Go map value is either nil or a table
with unique keys, so the model carries a nil flag and an association list
with no duplicate keys; a nil map has no entries. -/
structure Map where
  isNil : Bool
  entries : List (String × String)
  keysNodup : (entries.map Prod.fst).Nodup
  nilEmpty : isNil = true → entries = []

/-- reflect.DeepEqual on two values of type Map: deeply equal when both are
nil or both are non-nil with the same length and every key of the first is
mapped by the second to an identical value. -/
def deepEqualMap (m o : Map) : Bool :=
  m.isNil == o.isNil
    && m.entries.length == o.entries.length
    && m.entries.all fun p => AWSModel.lookupTag o.entries p.1 == some p.2

/-- func (m Map) Equals(other Map) bool: reflect.DeepEqual(m, other). -/
def Map.Equals (m other : Map) : Bool := deepEqualMap m other

/-- The filter the Difference loop applies: an item of m is kept unless the
other map holds the same key with an equal value. -/
def diffKeep (other : List (String × String)) (p : String × String) : Bool :=
  !(AWSModel.lookupTag other p.1 == some p.2)

/-- func (m Map) Difference(other Map) Map: res starts as a fresh non-nil
map; each key/value of m is copied unless other holds it with an equal
value. -/
def Map.Difference (m other : Map) : Map where
  isNil := false
  entries := m.entries.filter (diffKeep other.entries)
  keysNodup := ((List.filter_sublist m.entries).map Prod.fst).nodup m.keysNodup
  nilEmpty := by intro h; simp at h

end tags

/-! ## The EC2 service model: base data -/

/-- A backend call the service issues, recorded in a run trace. -/
inductive Call where
  | describeAvailabilityZones
  | describeSubnets
  | describeImages
  | describeInstances
  | runInstances
  | waitUntilInstanceRunning (id : String)
  | terminateInstances (id : String)
  | waitUntilInstanceTerminated (id : String)
  | createTags
  | deleteTags
  | getSecret
  | recordEvent (reason : String)
  deriving DecidableEq

/-- Modelled from the spec: a backend fault as this file observes it. The
awserrors package is not among the given files, so the error carries only
what the code inspects: whether awserrors.IsNotFound holds, and a message. -/
structure AWSErr where
  notFound : Bool
  msg : String
  deriving DecidableEq

/-- An error a service operation returns. goError stands for a plain or
wrapped Go error (errors.Wrap, errors.Wrapf, errors.Errorf and errors
passed through unchanged); failedDependency models
awserrors.NewFailedDependency (that package is not among the given files;
the constructor follows the spec's failed-dependency taxonomy); nilDeref
stands for a run that crashes on a Go nil-pointer dereference or an
out-of-range index instead of returning. -/
inductive SvcErr where
  | goError (msg : String)
  | failedDependency (msg : String)
  | nilDeref
  deriving DecidableEq

/-- awserrors.IsNotFound applied to an error a service operation returned:
the finders map a not-found backend fault to a nil result before wrapping,
so no error they return is itself not-found. -/
def SvcErr.isNotFound : SvcErr → Bool := fun _ => false

/-- v1alpha1.NetworkInterface: the fields this file reads or writes. -/
structure NetworkInterface where
  deviceIndex : Option Int := none
  associatePublicIpAddress : Option Bool := none
  subnetId : Option String := none
  groups : List String := []
  deriving DecidableEq

/-- v1alpha1.Instance, the provider-independent instance descriptor: the
fields this file reads or writes (tags are an association list with the
map-assignment model upsertTag). -/
structure Instance where
  id : String := ""
  instanceType : String := ""
  iamProfile : String := ""
  imageID : String := ""
  keyName : Option String := none
  ebsOptimized : Option Bool := none
  userData : Option String := none
  subnetID : String := ""
  securityGroupIDs : List String := []
  networkInterfaces : List NetworkInterface := []
  tags : List (String × String) := []
  deriving DecidableEq

/-- Go map assignment m[k] = v on a tag map: replaces the binding of k when
present, appends a new binding otherwise. -/
def upsertTag (l : List (String × String)) (k v : String) : List (String × String) :=
  if (lookupTag l k).isSome then l.map fun p => if p.1 = k then (k, v) else p
  else l ++ [(k, v)]

/-- The slice of an ec2.Instance this file reads (the conversion and the
wait call use only the instance id). -/
structure SDKInstance where
  instanceId : String
  deriving DecidableEq

/-- One ec2.Reservation: its Instances slice. -/
structure Reservation where
  instances : List SDKInstance
  deriving DecidableEq

/-- ec2.DescribeInstancesOutput: the Reservations slice. -/
structure DescribeInstancesOutput where
  reservations : List Reservation
  deriving DecidableEq

/-- Modelled from the spec: converters.SDKToInstance (not among the given
files) converts an SDK instance record into the observed instance
descriptor; only the identity matters here. -/
def SDKToInstance (i : SDKInstance) : Instance := { id := i.instanceId }

/-- Whether a service result is a failed-dependency error. -/
def resultFailedDep : Except SvcErr Instance → Bool
  | .error (.failedDependency _) => true
  | _ => false

/-! ## Scopes: the cluster-level and machine-level state the service reads -/

/-- v1alpha1 cluster config: CA material, as byte slices read only for
emptiness and content (modelled as strings). -/
structure ClusterConfig where
  caCertificate : String
  caPrivateKey : String
  deriving DecidableEq

/-- The network status the scope exposes: the API server ELB DNS name. -/
structure NetworkStatus where
  apiServerELBDNSName : String
  deriving DecidableEq

/-- The cluster object fields the provisioner dereferences when generating
control-plane user data. -/
structure ClusterSpec where
  podCIDRBlocks : List String
  serviceCIDRBlocks : List String
  serviceDomain : String
  deriving DecidableEq

/-- The scope's security-group map keyed by role
(v1alpha1.SecurityGroupControlPlane, v1alpha1.SecurityGroupNode); a nil
entry is an absent group, and only the .ID of a present group is read. -/
structure SecurityGroupsMap where
  controlPlaneSG : Option String
  nodeSG : Option String
  deriving DecidableEq

/-- The cluster-level scope the Service carries: names, nilable cluster
config / network / cluster object, the role-keyed security-group map, the
extra security-group ids the machine scope lists, and the ids of the
private subnets of the cluster subnet inventory. -/
structure ClusterScope where
  name : String
  clusterID : String
  clusterConfig : Option ClusterConfig
  network : Option NetworkStatus
  securityGroupsByRole : SecurityGroupsMap
  extraSecurityGroupIDs : List String
  cluster : Option ClusterSpec
  privateSubnetIDs : List String

/-- v1alpha1.AWSResourceReference for the IAM instance profile: the code
uses the ID when present, else dereferences the ARN. -/
structure IAMInstanceProfileRef where
  id : Option String
  arn : Option String
  deriving DecidableEq

/-- v1alpha1.Filter: a name and values. -/
structure FilterSpec where
  name : String
  values : List String
  deriving DecidableEq

/-- The machine's subnet reference: an explicit id or a filter list. -/
structure SubnetRef where
  id : Option String
  filters : List FilterSpec
  deriving DecidableEq

/-- The machine's AMI reference. -/
structure AMIRef where
  id : Option String
  deriving DecidableEq

/-- The machine-level scope: all MachineConfig, Machine and MachineStatus
fields this file reads. -/
structure MachineScope where
  name : String
  namespaceName : String
  role : String
  clusterID : String
  instanceType : String
  iamInstanceProfile : IAMInstanceProfileRef
  ami : AMIRef
  subnet : Option SubnetRef
  availabilityZone : String
  deviceIndex : Int
  publicIP : Option Bool
  keyName : String
  userDataSecretName : Option String
  kubeletVersion : String
  controlPlaneVersion : String
  instanceID : Option String

/-! ## The run-instances request and its construction -/

/-- ec2.InstanceNetworkInterfaceSpecification: the fields the code sets. -/
structure NISpec where
  groups : List String
  deviceIndex : Option Int
  associatePublicIpAddress : Option Bool
  subnetId : Option String
  deriving DecidableEq

/-- One ec2.TagSpecification: a resource type and a tag list. -/
structure TagSpec where
  resourceType : String
  tagList : List (String × String)
  deriving DecidableEq

/-- ec2.RunInstancesInput: the fields the code sets. A nil pointer or nil
slice is none; SecurityGroupIds is an optional list so that an unset field
and a set-but-empty list stay distinct. -/
structure RunInstancesInput where
  instanceType : String
  imageId : String
  keyName : Option String
  ebsOptimized : Option Bool
  maxCount : Int
  minCount : Int
  userData : Option String
  subnetId : Option String
  securityGroupIds : Option (List String)
  networkInterfaces : List NISpec
  iamInstanceProfile : Option String
  tagSpecifications : List TagSpec
  deriving DecidableEq

/-- The request construction at the head of runInstance (source lines
460-505): the flat SubnetId (always) and SecurityGroupIds (when non-empty)
are set only when the descriptor lists no network interfaces; the loop then
copies each descriptor interface into the request; an IAM profile and the
instance tag specification are attached when non-empty, and a volume tag
specification carrying the cluster id is always appended. -/
def buildRunInstancesInput (clusterID : String) (i : Instance) : RunInstancesInput :=
  let base : RunInstancesInput :=
    { instanceType := i.instanceType, imageId := i.imageID, keyName := i.keyName,
      ebsOptimized := i.ebsOptimized, maxCount := 1, minCount := 1,
      userData := i.userData, subnetId := none, securityGroupIds := none,
      networkInterfaces := [], iamInstanceProfile := none, tagSpecifications := [] }
  let withFlat :=
    if i.networkInterfaces.isEmpty then
      { base with subnetId := some i.subnetID,
                  securityGroupIds :=
                    if i.securityGroupIDs.length > 0 then some i.securityGroupIDs else none }
    else base
  let withNet :=
    { withFlat with networkInterfaces := i.networkInterfaces.map fun (intf : NetworkInterface) =>
        ({ groups := intf.groups, deviceIndex := intf.deviceIndex,
           associatePublicIpAddress := intf.associatePublicIpAddress,
           subnetId := intf.subnetId } : NISpec) }
  let withIam :=
    if i.iamProfile ≠ "" then { withNet with iamInstanceProfile := some i.iamProfile }
    else withNet
  let withTags :=
    if i.tags.length > 0 then
      { withIam with tagSpecifications :=
          [({ resourceType := "instance", tagList := i.tags } : TagSpec)] }
    else withIam
  { withTags with tagSpecifications :=
      withTags.tagSpecifications
        ++ [({ resourceType := "volume", tagList := [("clusterid", clusterID)] } : TagSpec)] }

/-! ## The environment of backend and collaborator responses -/

/-- The responses one run observes from the backend and from the
collaborators the spec treats as opaque (user-data generators, certificate
hashing, the secret store, the default-AMI lookup). run-instances is a
function of the request; the wait responses are per instance id. The
describe responses for the two finder paths are separate because the two
queries differ. -/
structure Env where
  describeByIdResp : Except AWSErr DescribeInstancesOutput
  describeByTagsResp : Except AWSErr DescribeInstancesOutput
  defaultAMILookup : Except AWSErr String
  describeAvailabilityZones : Except AWSErr Unit
  describeSubnets : Except AWSErr (List String)
  controlPlaneUserData : Except String String
  nodeUserData : Except String String
  certificateHash : Except String String
  secretLookup : Except String (Option String)
  runInstances : RunInstancesInput → Except AWSErr Reservation
  waitUntilInstanceRunning : String → Except AWSErr Unit
  terminateInstances : Except AWSErr Unit
  waitUntilInstanceTerminated : Except AWSErr Unit
  createTags : Except AWSErr Unit
  deleteTags : Except AWSErr Unit

/-! ## Instance finders (source lines 123-177) -/

/-- func (s *Service) InstanceByTags: on a not-found backend fault, no
instance and no error; on any other fault, a wrapped error; otherwise the
first instance of the first reservation that has one. -/
def InstanceByTags (resp : Except AWSErr DescribeInstancesOutput) :
    Except SvcErr (Option Instance) :=
  match resp with
  | .error e =>
    if e.notFound then .ok none
    else .error (.goError ("failed to describe instances by tags"))
  | .ok out =>
    match out.reservations.findSome? fun res => res.instances.head? with
    | some inst => .ok (some (SDKToInstance inst))
    | none => .ok none

/-- func (s *Service) InstanceIfExists: on a not-found backend fault, no
instance and no error; on any other fault, a wrapped error; otherwise the
first instance of the first reservation when both exist. -/
def InstanceIfExists (id : String) (resp : Except AWSErr DescribeInstancesOutput) :
    Except SvcErr (Option Instance) :=
  match resp with
  | .error e =>
    if e.notFound then .ok none
    else .error (.goError ("failed to describe instance: " ++ id))
  | .ok out =>
    match out.reservations with
    | [] => .ok none
    | res :: _ =>
      match res.instances with
      | [] => .ok none
      | inst :: _ => .ok (some (SDKToInstance inst))

/-- func (s *Service) runInstance (source lines 459-518): build the
request, issue the create call, fail on a backend error or an empty
reservation, then issue the wait-until-running call — whose result the
source discards — and return the converted first instance. -/
def runInstance (clusterID _role : String) (i : Instance) (env : Env) :
    Except SvcErr Instance × List Call :=
  let input := buildRunInstancesInput clusterID i
  match env.runInstances input with
  | .error e => (.error (.goError ("failed to run instance: " ++ e.msg)), [Call.runInstances])
  | .ok res =>
    match res.instances with
    | [] => (.error (.goError ("no instance returned for reservation")), [Call.runInstances])
    | inst :: _ =>
      (.ok (SDKToInstance inst),
       [Call.runInstances, Call.waitUntilInstanceRunning inst.instanceId])

/-! ## The provisioner, createInstance (source lines 179-373), staged as the
source's blocks: IAM profile, tags, image, network placement, the
dependency checks, the role branches, the key pair and the create call. -/

/-- Source lines 182-187: use the profile ID when present, else dereference
the ARN; a nil ARN crashes the run. -/
def resolveIAMProfile (m : MachineScope) : Except SvcErr String :=
  match m.iamInstanceProfile.id with
  | some v => .ok v
  | none =>
    match m.iamInstanceProfile.arn with
    | some a => .ok a
    | none => .error .nilDeref

/-- Modelled from the spec: tags.Build (4.2; the Build function is not among
the given files) returns the canonical tag set — a Name tag, a role tag, the
cluster-ownership tag set to the lifecycle value, and the provider-managed
marker. -/
def buildTags (clusterName lifecycle nameTag role : String) : List (String × String) :=
  [("Name", nameTag),
   ("sigs.k8s.io/cluster-api-provider-aws/role", role),
   ("kubernetes.io/cluster/" ++ clusterName, lifecycle),
   ("sigs.k8s.io/cluster-api-provider-aws/managed", "true")]

/-- Source lines 193-202: the canonical tag set for the machine, then the
two legacy assignments stamped on top. -/
def instanceTags (s : ClusterScope) (m : MachineScope) : List (String × String) :=
  upsertTag
    (upsertTag (buildTags s.name ("owned") m.name m.role) ("clusterid") m.clusterID)
    ("kubernetes.io/cluster/" ++ m.clusterID) ("owned")

/-- Source lines 205-213: the configured image id when present, else the
default AMI lookup (a describe-images backend call); its error is returned
as is. -/
def resolveImage (m : MachineScope) (env : Env) : Except SvcErr String × List Call :=
  match m.ami.id with
  | some img => (.ok img, [])
  | none =>
    match env.defaultAMILookup with
    | .error e => (.error (.goError e.msg), [Call.describeImages])
    | .ok img => (.ok img, [Call.describeImages])

/-- The request descriptor as first populated (source lines 188-213 net
effect: type, IAM profile, tags, image id). -/
def initialInput (s : ClusterScope) (m : MachineScope) (prof img : String) : Instance :=
  { instanceType := m.instanceType, iamProfile := prof, imageID := img,
    tags := instanceTags s m }

/-- Source lines 215-265, network placement. With a subnet reference: an
explicit id is used directly; otherwise a non-empty availability zone is
validated by a describe call, the subnets matching the filters are
described, and the first id (or the empty string when none match) becomes
the network interface subnet; the interface carries the device index and
public-IP flag. With no subnet reference: the first private cluster subnet
goes into the flat SubnetID, failing as a failed dependency when none
exist, and the interface stays zero-valued. -/
def resolvePlacement (s : ClusterScope) (m : MachineScope) (env : Env) (inp : Instance) :
    Except SvcErr (Instance × NetworkInterface) × List Call :=
  match m.subnet with
  | some sub =>
    match sub.id with
    | some sid =>
      (.ok (inp, { deviceIndex := some m.deviceIndex,
                   associatePublicIpAddress := m.publicIP,
                   subnetId := some sid, groups := [] }), [])
    | none =>
      if m.availabilityZone ≠ "" then
        match env.describeAvailabilityZones with
        | .error e =>
          (.error (.goError ("error describing availability zones: " ++ e.msg)),
           [Call.describeAvailabilityZones])
        | .ok _ =>
          match env.describeSubnets with
          | .error e =>
            (.error (.goError ("error describing subnets: " ++ e.msg)),
             [Call.describeAvailabilityZones, Call.describeSubnets])
          | .ok subnetIDs =>
            (.ok (inp, { deviceIndex := some m.deviceIndex,
                         associatePublicIpAddress := m.publicIP,
                         subnetId := some (subnetIDs.headD ""), groups := [] }),
             [Call.describeAvailabilityZones, Call.describeSubnets])
      else
        match env.describeSubnets with
        | .error e =>
          (.error (.goError ("error describing subnets: " ++ e.msg)), [Call.describeSubnets])
        | .ok subnetIDs =>
          (.ok (inp, { deviceIndex := some m.deviceIndex,
                       associatePublicIpAddress := m.publicIP,
                       subnetId := some (subnetIDs.headD ""), groups := [] }),
           [Call.describeSubnets])
  | none =>
    match s.privateSubnetIDs with
    | [] =>
      (.error (.failedDependency ("failed to run machine " ++ m.name ++ ", no subnets available")),
       [])
    | sn :: _ => (.ok ({ inp with subnetID := sn }, {}), [])

/-- Source line 267: the CA certificate check fires only when the cluster
config is present and the certificate empty. -/
def caCertMissing (s : ClusterScope) : Bool :=
  match s.clusterConfig with
  | some cfg => cfg.caCertificate == ""
  | none => false

/-- Source line 273: the ELB check fires only when the network is present
and its DNS name empty. -/
def elbMissing (s : ClusterScope) : Bool :=
  match s.network with
  | some nw => nw.apiServerELBDNSName == ""
  | none => false

/-- Source lines 280-311, the control-plane branch: the control-plane
security group, then the CA private key (a nil cluster config crashes
here), then control-plane user data generated from the config, network and
cluster object (a nil network or cluster object, or an empty CIDR list,
crashes); on success the user data and the control-plane group are
attached. -/
def cpBranch (s : ClusterScope) (m : MachineScope) (env : Env) (inp : Instance) :
    Except SvcErr Instance × List Call :=
  if m.role = "controlplane" then
    match s.securityGroupsByRole.controlPlaneSG with
    | none =>
      (.error (.failedDependency ("failed to run controlplane, security group not available")), [])
    | some sg =>
      match s.clusterConfig with
      | none => (.error .nilDeref, [])
      | some cfg =>
        if cfg.caPrivateKey = "" then
          (.error (.failedDependency ("failed to run controlplane, missing CAPrivateKey")), [])
        else
          match s.network with
          | none => (.error .nilDeref, [])
          | some _ =>
            match s.cluster with
            | none => (.error .nilDeref, [])
            | some cl =>
              if cl.podCIDRBlocks.isEmpty || cl.serviceCIDRBlocks.isEmpty then
                (.error .nilDeref, [])
              else
                match env.controlPlaneUserData with
                | .error e => (.error (.goError e), [])
                | .ok ud =>
                  (.ok { inp with userData := some ud,
                                  securityGroupIDs := inp.securityGroupIDs ++ [sg] }, [])
  else (.ok inp, [])

/-- Source lines 322-324 capture the address of the loop variable, so every
appended group pointer reads as the final security-group id. -/
def aliasedGroups (ids : List String) : List String :=
  match ids.getLast? with
  | none => []
  | some last => List.replicate ids.length last

/-- Modelled from the spec: user-data payloads are opaque byte blobs; the
base64 encoding of the secret payload is an injective tagging. -/
def base64Encode (s : String) : String := "base64:" ++ s

/-- Source lines 313-356, the node branch: the node security group is
attached when a cluster object is present (a nil map entry crashes), the
extra scope groups are appended, the interface receives the aliased group
pointers and becomes the request's only network interface; user data then
comes from the machine's secret when no cluster object is present and a
secret is named (a missing field leaves it unset), else from the node
user-data generator fed by the certificate hash (a nil cluster config or
network crashes). -/
def nodeBranch (s : ClusterScope) (m : MachineScope) (env : Env)
    (inp : Instance) (ni : NetworkInterface) : Except SvcErr Instance × List Call :=
  if m.role = "node" then
    let step1 : Except SvcErr Instance :=
      match s.cluster with
      | some _ =>
        match s.securityGroupsByRole.nodeSG with
        | none => .error .nilDeref
        | some sgid => .ok { inp with securityGroupIDs := inp.securityGroupIDs ++ [sgid] }
      | none => .ok inp
    match step1 with
    | .error e => (.error e, [])
    | .ok inp1 =>
      let inp2 := { inp1 with securityGroupIDs := inp1.securityGroupIDs ++ s.extraSecurityGroupIDs }
      let ni2 := { ni with groups := ni.groups ++ aliasedGroups inp2.securityGroupIDs }
      let inp3 := { inp2 with networkInterfaces := [ni2] }
      if s.cluster.isNone && m.userDataSecretName.isSome then
        match env.secretLookup with
        | .error e => (.error (.goError e), [Call.getSecret])
        | .ok none => (.ok inp3, [Call.getSecret])
        | .ok (some dataStr) =>
          (.ok { inp3 with userData := some (base64Encode dataStr) }, [Call.getSecret])
      else
        match s.clusterConfig with
        | none => (.error .nilDeref, [])
        | some _ =>
          match env.certificateHash with
          | .error e => (.error (.goError e), [])
          | .ok _ =>
            match s.network with
            | none => (.error .nilDeref, [])
            | some _ =>
              match env.nodeUserData with
              | .error e => (.error (.goError e), [])
              | .ok ud => (.ok { inp3 with userData := some ud }, [])
  else (.ok inp, [])

/-- Source lines 267-372 after placement: the CA certificate and ELB
dependency checks, the two role branches, the optional SSH key, the create
call, and the created-instance event on success. -/
def afterPlacement (s : ClusterScope) (m : MachineScope) (env : Env)
    (inp : Instance) (ni : NetworkInterface) : Except SvcErr Instance × List Call :=
  if caCertMissing s then
    (.error (.failedDependency ("failed to run controlplane, missing CACertificate")), [])
  else if elbMissing s then
    (.error (.failedDependency ("failed to run controlplane, APIServer ELB not available")), [])
  else
    match cpBranch s m env inp with
    | (.error e, tr) => (.error e, tr)
    | (.ok inp1, tr1) =>
      match nodeBranch s m env inp1 ni with
      | (.error e, tr2) => (.error e, tr1 ++ tr2)
      | (.ok inp2, tr2) =>
        let inp3 := if m.keyName ≠ "" then { inp2 with keyName := some m.keyName } else inp2
        match runInstance s.clusterID m.role inp3 env with
        | (.error e, tr3) => (.error e, tr1 ++ tr2 ++ tr3)
        | (.ok out, tr3) =>
          (.ok out, tr1 ++ tr2 ++ tr3 ++ [Call.recordEvent ("CreatedInstance")])

/-- func (s *Service) createInstance: the staged pipeline above in source
order. -/
def createInstance (s : ClusterScope) (m : MachineScope) (env : Env) :
    Except SvcErr Instance × List Call :=
  match resolveIAMProfile m with
  | .error e => (.error e, [])
  | .ok prof =>
    match resolveImage m env with
    | (.error e, tr1) => (.error e, tr1)
    | (.ok img, tr1) =>
      match resolvePlacement s m env (initialInput s m prof img) with
      | (.error e, tr2) => (.error e, tr1 ++ tr2)
      | (.ok (inp2, ni), tr2) =>
        match afterPlacement s m env inp2 ni with
        | (r, tr3) => (r, tr1 ++ tr2 ++ tr3)

/-! ## Lifecycle operations (source lines 390-430 and 520-583) -/

/-- The wrapper message a failed terminate call produces. -/
def terminateFailMsg (instanceID : String) : String :=
  "failed to terminate instance with id " ++ instanceID

/-- The wrapper message a failed wait-until-terminated call produces. -/
def waitFailMsg (instanceID : String) : String :=
  "failed to wait for instance " ++ instanceID ++ " termination"

/-- func (s *Service) TerminateInstance: one terminate call; on success one
DeletedInstance event, recorded against the cluster when present, else the
machine (one event either way). -/
def TerminateInstance (instanceID : String) (env : Env) : Except SvcErr Unit × List Call :=
  match env.terminateInstances with
  | .error _ =>
    (.error (.goError (terminateFailMsg instanceID)), [Call.terminateInstances instanceID])
  | .ok _ =>
    (.ok (), [Call.terminateInstances instanceID, Call.recordEvent ("DeletedInstance")])

/-- func (s *Service) TerminateInstanceAndWait: terminate (returning its
error unchanged), then block on the wait-until-terminated call, wrapping a
wait fault with its own message. -/
def TerminateInstanceAndWait (instanceID : String) (env : Env) :
    Except SvcErr Unit × List Call :=
  match TerminateInstance instanceID env with
  | (.error e, tr) => (.error e, tr)
  | (.ok _, tr) =>
    match env.waitUntilInstanceTerminated with
    | .error _ =>
      (.error (.goError (waitFailMsg instanceID)),
       tr ++ [Call.waitUntilInstanceTerminated instanceID])
    | .ok _ => (.ok (), tr ++ [Call.waitUntilInstanceTerminated instanceID])

/-- func (s *Service) UpdateResourceTags: a create-tags call only when the
create map is non-empty (returning on its error), then a delete-tags call
only when the remove map is non-empty. -/
def UpdateResourceTags (resourceID : String) (create remove : List (String × String))
    (env : Env) : Except SvcErr Unit × List Call :=
  let step1 : Except SvcErr Unit × List Call :=
    if create.length > 0 then
      match env.createTags with
      | .error _ =>
        (.error (.goError ("failed to create tags for resource " ++ resourceID)),
         [Call.createTags])
      | .ok _ => (.ok (), [Call.createTags])
    else (.ok (), [])
  match step1 with
  | (.error e, tr) => (.error e, tr)
  | (.ok _, tr) =>
    if remove.length > 0 then
      match env.deleteTags with
      | .error _ =>
        (.error (.goError ("failed to delete tags for resource " ++ resourceID)),
         tr ++ [Call.deleteTags])
      | .ok _ => (.ok (), tr ++ [Call.deleteTags])
    else (.ok (), tr)

/-! ## The reconcile orchestrator (source lines 432-457) -/

/-- The tag-lookup step and the create fallback of CreateOrGetMachine: a
non-not-found lookup error is returned wrapped; a found instance is
returned; otherwise createInstance runs. -/
def getByTagsOrCreate (s : ClusterScope) (m : MachineScope) (env : Env) :
    Except SvcErr Instance × List Call :=
  match InstanceByTags env.describeByTagsResp with
  | .error e =>
    if e.isNotFound then
      match createInstance s m env with
      | (r, tr) => (r, Call.describeInstances :: tr)
    else
      (.error (.goError ("failed to query machine " ++ m.name ++ " instance by tags")),
       [Call.describeInstances])
  | .ok (some inst) => (.ok inst, [Call.describeInstances])
  | .ok none =>
    match createInstance s m env with
    | (r, tr) => (r, Call.describeInstances :: tr)

/-- func (s *Service) CreateOrGetMachine: when the machine status records an
instance id, look it up by id first — a non-not-found error is returned
wrapped, a found instance is returned at once; otherwise fall through to
the tag lookup and, only when that also yields nothing, createInstance. -/
def CreateOrGetMachine (s : ClusterScope) (m : MachineScope) (env : Env) :
    Except SvcErr Instance × List Call :=
  match m.instanceID with
  | none => getByTagsOrCreate s m env
  | some iid =>
    match InstanceIfExists iid env.describeByIdResp with
    | .error e =>
      if e.isNotFound then
        match getByTagsOrCreate s m env with
        | (r, tr) => (r, Call.describeInstances :: tr)
      else
        (.error (.goError ("failed to look up machine " ++ m.name ++ " by id " ++ iid)),
         [Call.describeInstances])
    | .ok (some inst) => (.ok inst, [Call.describeInstances])
    | .ok none =>
      match getByTagsOrCreate s m env with
      | (r, tr) => (r, Call.describeInstances :: tr)

/-! ## Concrete inputs for the closed counterexample and witness theorems -/

/-- A nil tag map. -/
def nilTagMap : tags.Map :=
  { isNil := true, entries := [], keysNodup := by decide, nilEmpty := by simp }

/-- A non-nil empty tag map. -/
def emptyTagMap : tags.Map :=
  { isNil := false, entries := [], keysNodup := by decide, nilEmpty := by simp }

/-- A sample two-entry tag map. -/
def sampleTagMapA : tags.Map :=
  { isNil := false, entries := [("k1", "v1"), ("k2", "v2")],
    keysNodup := by decide, nilEmpty := by simp }

/-- A sample tag map agreeing with sampleTagMapA on k1 only. -/
def sampleTagMapB : tags.Map :=
  { isNil := false, entries := [("k1", "v1"), ("k3", "v3")],
    keysNodup := by decide, nilEmpty := by simp }

/-- An environment in which every backend and collaborator call succeeds;
the create call returns one instance, i-1. -/
def okEnv : Env where
  describeByIdResp := .ok { reservations := [] }
  describeByTagsResp := .ok { reservations := [] }
  defaultAMILookup := .ok ("ami-1")
  describeAvailabilityZones := .ok ()
  describeSubnets := .ok []
  controlPlaneUserData := .ok ("cp-userdata")
  nodeUserData := .ok ("node-userdata")
  certificateHash := .ok ("certhash")
  secretLookup := .ok none
  runInstances := fun _ => .ok { instances := [{ instanceId := "i-1" }] }
  waitUntilInstanceRunning := fun _ => .ok ()
  terminateInstances := .ok ()
  waitUntilInstanceTerminated := .ok ()
  createTags := .ok ()
  deleteTags := .ok ()

/-- A cluster scope whose config carries a certificate but an empty CA
private key. -/
def cpScope : ClusterScope where
  name := "c1"
  clusterID := "cid-1"
  clusterConfig := some { caCertificate := "cert-pem", caPrivateKey := "" }
  network := some { apiServerELBDNSName := "elb.example.test" }
  securityGroupsByRole := { controlPlaneSG := some "sg-cp", nodeSG := some "sg-node" }
  extraSecurityGroupIDs := []
  cluster := some { podCIDRBlocks := ["192.168.0.0/16"],
                    serviceCIDRBlocks := ["10.96.0.0/12"],
                    serviceDomain := "cluster.local" }
  privateSubnetIDs := ["sn-1"]

/-- A control-plane machine with no configured AMI id and an explicit
subnet id. -/
def cpMachine : MachineScope where
  name := "m1"
  namespaceName := "default"
  role := "controlplane"
  clusterID := "cid-1"
  instanceType := "m4.large"
  iamInstanceProfile := { id := some "profile-1", arn := none }
  ami := { id := none }
  subnet := some { id := some "sn-9", filters := [] }
  availabilityZone := ""
  deviceIndex := 0
  publicIP := none
  keyName := ""
  userDataSecretName := none
  kubeletVersion := "1.13.0"
  controlPlaneVersion := "1.13.0"
  instanceID := none

/-- okEnv with a failing default-AMI lookup. -/
def amiFailEnv : Env :=
  { okEnv with defaultAMILookup := .error { notFound := false, msg := "ami lookup failed" } }

/-- A machine that selects its subnet by filters (no explicit subnet id),
with a configured AMI id. -/
def filterMachine : MachineScope :=
  { cpMachine with
      ami := { id := some "ami-7" },
      subnet := some { id := none, filters := [{ name := "tag:usage", values := ["private"] }] } }

/-- okEnv with a wait-until-running call that fails. -/
def waitFailEnv : Env :=
  { okEnv with waitUntilInstanceRunning :=
      (fun _ => Except.error ({ notFound := false, msg := "timeout waiting for running" } : AWSErr)) }

/-- okEnv with a wait-until-terminated call that fails. -/
def waitTermFailEnv : Env :=
  { okEnv with waitUntilInstanceTerminated := .error { notFound := false, msg := "wait fault" } }

/-- A describe response holding exactly one instance. -/
def oneInstanceResp (id : String) : Except AWSErr DescribeInstancesOutput :=
  .ok { reservations := [{ instances := [{ instanceId := id }] }] }

/-! ## Lemmas about tag-map lookup -/

theorem lookupTag_eq_some_of_mem (l : List (String × String))
    (hnd : (l.map Prod.fst).Nodup) (k v : String) (hm : (k, v) ∈ l) :
    lookupTag l k = some v := by
  induction l with
  | nil => simp at hm
  | cons p rest ih =>
    rw [List.map_cons, List.nodup_cons] at hnd
    rcases List.mem_cons.1 hm with h | h
    · rw [← h]
      simp [lookupTag]
    · have hkin : k ∈ rest.map Prod.fst := by
        have h2 := List.mem_map_of_mem Prod.fst h
        simpa using h2
      have hne : p.1 ≠ k := fun he => hnd.1 (by rw [he]; exact hkin)
      simp only [lookupTag, if_neg hne]
      exact ih hnd.2 h

theorem mem_of_lookupTag_eq_some (l : List (String × String)) (k v : String)
    (h : lookupTag l k = some v) : (k, v) ∈ l := by
  induction l with
  | nil => simp [lookupTag] at h
  | cons p rest ih =>
    obtain ⟨a, b⟩ := p
    by_cases he : a = k
    · subst he
      simp [lookupTag] at h
      rw [← h]
      exact List.mem_cons_self _ _
    · simp only [lookupTag, if_neg he] at h
      exact List.mem_cons_of_mem _ (ih h)

theorem lookupTag_some_mem_keys (l : List (String × String)) (k v : String)
    (h : lookupTag l k = some v) : k ∈ l.map Prod.fst :=
  List.mem_map.2 ⟨(k, v), mem_of_lookupTag_eq_some l k v h, rfl⟩

theorem lookupTag_filter (l : List (String × String)) (q : String × String → Bool)
    (hnd : (l.map Prod.fst).Nodup) (k v : String) :
    lookupTag (l.filter q) k = some v ↔ (lookupTag l k = some v ∧ q (k, v) = true) := by
  constructor
  · intro h
    have hmem := List.mem_filter.1 (mem_of_lookupTag_eq_some _ _ _ h)
    exact ⟨lookupTag_eq_some_of_mem l hnd k v hmem.1, hmem.2⟩
  · rintro ⟨h1, h2⟩
    have hmem : (k, v) ∈ l.filter q :=
      List.mem_filter.2 ⟨mem_of_lookupTag_eq_some _ _ _ h1, h2⟩
    have hndf : ((l.filter q).map Prod.fst).Nodup :=
      ((List.filter_sublist l).map Prod.fst).nodup hnd
    exact lookupTag_eq_some_of_mem _ hndf k v hmem

/-! ## Lemmas about Map.Equals -/

theorem Equals_eq_true_iff (m o : tags.Map) :
    m.Equals o = true ↔
      (m.isNil = o.isNil ∧ m.entries.length = o.entries.length ∧
        ∀ p ∈ m.entries, lookupTag o.entries p.1 = some p.2) := by
  simp [tags.Map.Equals, tags.deepEqualMap, List.all_eq_true, Bool.and_eq_true, and_assoc]

theorem Equals_refl (m : tags.Map) : m.Equals m = true := by
  rw [Equals_eq_true_iff]
  exact ⟨rfl, rfl, fun p hp => lookupTag_eq_some_of_mem m.entries m.keysNodup p.1 p.2 hp⟩

theorem lookup_all_symm (me oe : List (String × String))
    (hndm : (me.map Prod.fst).Nodup) (hndo : (oe.map Prod.fst).Nodup)
    (hlen : me.length = oe.length)
    (h : ∀ p ∈ me, lookupTag oe p.1 = some p.2) :
    ∀ p ∈ oe, lookupTag me p.1 = some p.2 := by
  have hsub : ∀ k ∈ me.map Prod.fst, k ∈ oe.map Prod.fst := by
    intro k hk
    obtain ⟨p, hp, hpk⟩ := List.mem_map.1 hk
    rw [← hpk]
    exact lookupTag_some_mem_keys oe p.1 p.2 (h p hp)
  have hfin : (me.map Prod.fst).toFinset = (oe.map Prod.fst).toFinset := by
    apply Finset.eq_of_subset_of_card_le
    · intro k hk
      rw [List.mem_toFinset] at hk ⊢
      exact hsub k hk
    · rw [List.toFinset_card_of_nodup hndm, List.toFinset_card_of_nodup hndo,
        List.length_map, List.length_map, hlen]
  intro p hp
  have hk : p.1 ∈ me.map Prod.fst := by
    rw [← List.mem_toFinset, hfin, List.mem_toFinset]
    exact List.mem_map_of_mem Prod.fst hp
  obtain ⟨q, hq, hqk⟩ := List.mem_map.1 hk
  have h2 := h q hq
  have h3 : lookupTag oe p.1 = some p.2 := lookupTag_eq_some_of_mem oe hndo p.1 p.2 hp
  rw [hqk] at h2
  rw [h2] at h3
  have hv : q.2 = p.2 := Option.some.inj h3
  have hqmem : (p.1, p.2) ∈ me := by
    have hq2 : q = (p.1, p.2) := by
      obtain ⟨q1, q2⟩ := q
      simp only at hqk hv
      rw [hqk, hv]
    rw [← hq2]
    exact hq
  exact lookupTag_eq_some_of_mem me hndm p.1 p.2 hqmem

theorem Equals_symm (m o : tags.Map) : m.Equals o = o.Equals m := by
  have hiff : m.Equals o = true ↔ o.Equals m = true := by
    rw [Equals_eq_true_iff, Equals_eq_true_iff]
    constructor
    · rintro ⟨h1, h2, h3⟩
      exact ⟨h1.symm, h2.symm,
        lookup_all_symm m.entries o.entries m.keysNodup o.keysNodup h2 h3⟩
    · rintro ⟨h1, h2, h3⟩
      exact ⟨h1.symm, h2.symm,
        lookup_all_symm o.entries m.entries o.keysNodup m.keysNodup h2 h3⟩
  cases hmo : m.Equals o <;> cases hom : o.Equals m <;> simp_all

theorem Equals_of_empty (m o : tags.Map) (hnil : m.isNil = o.isNil)
    (hm : m.entries = []) (ho : o.entries = []) : m.Equals o = true := by
  rw [Equals_eq_true_iff]
  refine ⟨hnil, by rw [hm, ho], ?_⟩
  intro p hp
  rw [hm] at hp
  simp at hp

theorem Equals_false_of_isNil_ne (m o : tags.Map) (h : m.isNil ≠ o.isNil) :
    m.Equals o = false := by
  cases hmo : m.Equals o
  · rfl
  · exact absurd ((Equals_eq_true_iff m o).1 hmo).1 h

/-! ## Claim theorems: the tag model -/

/-- C4: for all tag maps A and B, Difference(A, B) contains exactly those
key/value pairs of A whose key is absent from B or mapped by B to a
different value; and Difference(A, A) is the empty map. -/
theorem C4_difference :
    (∀ (m o : tags.Map) (k v : String),
        lookupTag (m.Difference o).entries k = some v ↔
          (lookupTag m.entries k = some v ∧ ¬ lookupTag o.entries k = some v))
      ∧ ∀ m : tags.Map, (m.Difference m).entries = [] := by
  constructor
  · intro m o k v
    have hE : (m.Difference o).entries = m.entries.filter (tags.diffKeep o.entries) := rfl
    rw [hE, lookupTag_filter _ _ m.keysNodup]
    simp [tags.diffKeep]
  · intro m
    have hE : (m.Difference m).entries = m.entries.filter (tags.diffKeep m.entries) := rfl
    rw [hE, List.filter_eq_nil_iff]
    intro p hp
    simp only [tags.diffKeep, Bool.not_eq_true', beq_eq_false_iff_ne, ne_eq, not_not]
    exact lookupTag_eq_some_of_mem _ m.keysNodup p.1 p.2 hp

/-- C4 witness: the characterization evaluated at concrete maps — k2 of
sampleTagMapA survives the difference with sampleTagMapB, and the
self-difference of sampleTagMapA is empty. -/
theorem C4_difference_witness :
    lookupTag (sampleTagMapA.Difference sampleTagMapB).entries ("k2") = some "v2"
      ∧ (sampleTagMapA.Difference sampleTagMapA).entries = [] :=
  ⟨(C4_difference.1 sampleTagMapA sampleTagMapB "k2" "v2").2 ⟨by decide, by decide⟩,
   C4_difference.2 sampleTagMapA⟩

/-- C5 counterexample: reflect.DeepEqual distinguishes a nil map from a
non-nil empty map, so Equals between them is false, against the claim that
a nil map and an empty map compare equal. -/
theorem C5_counterexample : tags.Map.Equals nilTagMap emptyTagMap = false := by decide

/-- C5 amended: Equals is reflexive and symmetric, and two empty tag maps
that agree on nil-ness are equal; but maps disagreeing on nil-ness are
never equal, so a nil map and a non-nil empty map compare unequal. -/
theorem C5_equals_amended :
    (∀ m : tags.Map, m.Equals m = true)
      ∧ (∀ m o : tags.Map, m.Equals o = o.Equals m)
      ∧ (∀ m o : tags.Map, m.isNil = o.isNil → m.entries = [] → o.entries = [] →
          m.Equals o = true)
      ∧ ∀ m o : tags.Map, m.isNil ≠ o.isNil → m.Equals o = false :=
  ⟨Equals_refl, Equals_symm, Equals_of_empty, Equals_false_of_isNil_ne⟩

/-- C6: both finders return no instance and no error on a not-found
backend fault, and an error carrying no instance on any other backend
fault of the describe call. -/
theorem C6_finders :
    (∀ (id : String) (e : AWSErr), e.notFound = true →
        InstanceIfExists id (.error e) = .ok none)
      ∧ (∀ e : AWSErr, e.notFound = true → InstanceByTags (.error e) = .ok none)
      ∧ (∀ (id : String) (e : AWSErr), e.notFound = false →
          InstanceIfExists id (.error e)
            = .error (.goError ("failed to describe instance: " ++ id)))
      ∧ ∀ e : AWSErr, e.notFound = false →
          InstanceByTags (.error e)
            = .error (.goError ("failed to describe instances by tags")) := by
  refine ⟨?_, ?_, ?_, ?_⟩
  · intro id e he
    simp [InstanceIfExists, he]
  · intro e he
    simp [InstanceByTags, he]
  · intro id e he
    simp [InstanceIfExists, he]
  · intro e he
    simp [InstanceByTags, he]

/-- C6 witness: the finder contract evaluated at concrete responses. -/
theorem C6_finders_witness :
    InstanceIfExists ("i-1") (.error ({ notFound := true, msg := "no such id" } : AWSErr))
        = .ok none
      ∧ InstanceByTags (.error ({ notFound := false, msg := "backend fault" } : AWSErr))
          = .error (.goError ("failed to describe instances by tags")) :=
  ⟨C6_finders.1 "i-1" { notFound := true, msg := "no such id" } rfl,
   C6_finders.2.2.2 { notFound := false, msg := "backend fault" } rfl⟩

/-- C3: the generated create request never sets both the flat
subnet/security-group pair and a network-interface list: when the
descriptor lists no interfaces the request carries the flat subnet id (and
groups only when non-empty) and no interfaces, and when the descriptor
lists interfaces the request carries them with both flat fields unset. -/
theorem C3_network_exclusive (clusterID : String) (i : Instance) :
    (i.networkInterfaces = []
        ∧ (buildRunInstancesInput clusterID i).networkInterfaces = []
        ∧ (buildRunInstancesInput clusterID i).subnetId = some i.subnetID)
      ∨ (i.networkInterfaces ≠ []
        ∧ (buildRunInstancesInput clusterID i).networkInterfaces ≠ []
        ∧ (buildRunInstancesInput clusterID i).subnetId = none
        ∧ (buildRunInstancesInput clusterID i).securityGroupIds = none) := by
  cases hni : i.networkInterfaces with
  | nil =>
    left
    refine ⟨rfl, ?_, ?_⟩ <;>
      · simp only [buildRunInstancesInput, hni]
        repeat' split
        all_goals simp_all
  | cons a rest =>
    right
    refine ⟨by simp [hni], ?_, ?_, ?_⟩ <;>
      · simp only [buildRunInstancesInput, hni]
        repeat' split
        all_goals simp_all

/-- C7 counterexample: a run in which the create call succeeds but the
wait-until-running call fails still returns the created instance, so the
function can return although the backend never reported the instance as
running. -/
theorem C7_counterexample :
    (runInstance ("cid-1") ("node") ({} : Instance) waitFailEnv).1
        = .ok (SDKToInstance { instanceId := "i-1" })
      ∧ waitFailEnv.waitUntilInstanceRunning ("i-1") ≠ .ok () := by
  refine ⟨by decide, by decide⟩

/-- C7 amended: a successful create returning zero instances is a fatal
error (never an instance); otherwise runInstance records the
wait-until-running call for the created instance before returning it, but
the wait's outcome is discarded — the instance is returned regardless of
whether the backend reported it running. -/
theorem C7_runInstance :
    (∀ (cid role : String) (i : Instance) (env : Env),
        env.runInstances (buildRunInstancesInput cid i) = .ok { instances := [] } →
        runInstance cid role i env
          = (.error (.goError ("no instance returned for reservation")), [Call.runInstances]))
      ∧ ∀ (cid role : String) (i : Instance) (env : Env) (inst : SDKInstance)
          (rest : List SDKInstance),
          env.runInstances (buildRunInstancesInput cid i) = .ok { instances := inst :: rest } →
          runInstance cid role i env
            = (.ok (SDKToInstance inst),
               [Call.runInstances, Call.waitUntilInstanceRunning inst.instanceId]) := by
  constructor
  · intro cid role i env h
    simp [runInstance, h]
  · intro cid role i env inst rest h
    simp [runInstance, h]

/-- C7 witness: both amended branches at concrete inputs — an empty
reservation yields the fatal error, a one-instance reservation yields the
instance with the wait call recorded. -/
theorem C7_runInstance_witness :
    runInstance ("cid-1") ("node") ({} : Instance)
        ({ okEnv with runInstances := fun _ => .ok { instances := [] } })
        = (.error (.goError ("no instance returned for reservation")), [Call.runInstances])
      ∧ runInstance ("cid-1") ("node") ({} : Instance) okEnv
          = (.ok (SDKToInstance { instanceId := "i-1" }),
             [Call.runInstances, Call.waitUntilInstanceRunning ("i-1")]) :=
  ⟨C7_runInstance.1 "cid-1" "node" {} _ rfl,
   C7_runInstance.2 "cid-1" "node" {} okEnv { instanceId := "i-1" } [] rfl⟩

/-- The two lifecycle wrapper messages differ: their lengths differ. -/
theorem waitFailMsg_ne_terminateFailMsg (id : String) :
    waitFailMsg id ≠ terminateFailMsg id := by
  intro h
  have hlen := congrArg String.length h
  rw [waitFailMsg, terminateFailMsg, String.length_append, String.length_append,
    String.length_append] at hlen
  have h1 : ("failed to wait for instance ").length = 28 := rfl
  have h2 : (" termination").length = 12 := rfl
  have h3 : ("failed to terminate instance with id ").length = 37 := rfl
  rw [h1, h2, h3] at hlen
  omega

/-- C8: when the terminate call succeeds but the wait-until-terminated call
errors, TerminateInstanceAndWait returns the wait-failure wrapping — which
differs from the terminate-failure wrapping — and exactly one
DeletedInstance event was emitted. -/
theorem C8_terminate_then_wait_fails (id : String) (env : Env) (e : AWSErr)
    (hterm : env.terminateInstances = .ok ())
    (hwait : env.waitUntilInstanceTerminated = .error e) :
    (TerminateInstanceAndWait id env).1 = .error (.goError (waitFailMsg id))
      ∧ waitFailMsg id ≠ terminateFailMsg id
      ∧ (TerminateInstanceAndWait id env).2.count (Call.recordEvent ("DeletedInstance")) = 1 := by
  refine ⟨?_, waitFailMsg_ne_terminateFailMsg id, ?_⟩ <;>
    simp [TerminateInstanceAndWait, TerminateInstance, hterm, hwait, List.count_cons]

/-- C8 witness: the scenario at instance id i-123 under a concrete
environment whose wait call fails. -/
theorem C8_witness :
    (TerminateInstanceAndWait ("i-123") waitTermFailEnv).1
        = .error (.goError (waitFailMsg ("i-123")))
      ∧ (TerminateInstanceAndWait ("i-123") waitTermFailEnv).2.count
          (Call.recordEvent ("DeletedInstance")) = 1 :=
  ⟨(C8_terminate_then_wait_fails "i-123" waitTermFailEnv
      { notFound := false, msg := "wait fault" } rfl rfl).1,
   (C8_terminate_then_wait_fails "i-123" waitTermFailEnv
      { notFound := false, msg := "wait fault" } rfl rfl).2.2⟩

/-- C9: with a non-empty create map and an empty remove map exactly one
create-tags call and no delete-tags call is issued; and a delete-tags call
appears in the trace only when the remove map is non-empty. -/
theorem C9_update_resource_tags (rid : String) (create remove : List (String × String))
    (env : Env) :
    (create ≠ [] → remove = [] →
        (UpdateResourceTags rid create remove env).2.count Call.createTags = 1
          ∧ (UpdateResourceTags rid create remove env).2.count Call.deleteTags = 0)
      ∧ (Call.deleteTags ∈ (UpdateResourceTags rid create remove env).2 → remove ≠ []) := by
  constructor
  · intro hne hrem
    subst hrem
    cases create with
    | nil => exact absurd rfl hne
    | cons c cs =>
      cases henv : env.createTags <;>
        simp [UpdateResourceTags, henv, List.count_cons]
  · intro hmem hrem
    subst hrem
    cases create with
    | nil => simp [UpdateResourceTags] at hmem
    | cons c cs =>
      cases henv : env.createTags <;>
        simp [UpdateResourceTags, henv] at hmem
  
/-- C9 witness: one concrete non-empty create map and empty remove map, and
a concrete trace membership consequence. -/
theorem C9_witness :
    (UpdateResourceTags ("i-9") [("k", "v")] [] okEnv).2.count Call.createTags = 1
      ∧ (UpdateResourceTags ("i-9") [("k", "v")] [] okEnv).2.count Call.deleteTags = 0 :=
  (C9_update_resource_tags "i-9" [("k", "v")] [] okEnv).1 (by simp) rfl

/-- C1: CreateOrGetMachine returns an id-lookup hit immediately with a
single describe call (whatever the tag response holds, so a disagreeing
tag record loses); otherwise it returns a tag-lookup hit immediately with
no create call; and only when both lookups yield nothing does it run
createInstance, whose result and calls it returns after the describes. -/
theorem C1_create_or_get :
    (∀ (s : ClusterScope) (m : MachineScope) (env : Env) (iid : String) (inst : Instance),
        m.instanceID = some iid →
        InstanceIfExists iid env.describeByIdResp = .ok (some inst) →
        CreateOrGetMachine s m env = (.ok inst, [Call.describeInstances]))
      ∧ (∀ (s : ClusterScope) (m : MachineScope) (env : Env) (inst : Instance),
          (m.instanceID = none ∨
            ∃ iid, m.instanceID = some iid
              ∧ InstanceIfExists iid env.describeByIdResp = .ok none) →
          InstanceByTags env.describeByTagsResp = .ok (some inst) →
          ∃ tr, CreateOrGetMachine s m env = (.ok inst, tr) ∧ Call.runInstances ∉ tr)
      ∧ ∀ (s : ClusterScope) (m : MachineScope) (env : Env),
          (m.instanceID = none ∨
            ∃ iid, m.instanceID = some iid
              ∧ InstanceIfExists iid env.describeByIdResp = .ok none) →
          InstanceByTags env.describeByTagsResp = .ok none →
          ∃ pre, CreateOrGetMachine s m env
              = ((createInstance s m env).1, pre ++ (createInstance s m env).2)
            ∧ Call.runInstances ∉ pre := by
  refine ⟨?_, ?_, ?_⟩
  · intro s m env iid inst hid hlook
    simp [CreateOrGetMachine, hid, hlook]
  · intro s m env inst hid htags
    rcases hid with hid | ⟨iid, hid, hlook⟩
    · refine ⟨[Call.describeInstances], ?_, by simp⟩
      simp [CreateOrGetMachine, hid, getByTagsOrCreate, htags]
    · refine ⟨[Call.describeInstances, Call.describeInstances], ?_, by simp⟩
      simp [CreateOrGetMachine, hid, hlook, getByTagsOrCreate, htags]
  · intro s m env hid htags
    rcases hci : createInstance s m env with ⟨r, tr⟩
    rcases hid with hid | ⟨iid, hid, hlook⟩
    · refine ⟨[Call.describeInstances], ?_, by simp⟩
      simp [CreateOrGetMachine, hid, getByTagsOrCreate, htags, hci]
    · refine ⟨[Call.describeInstances, Call.describeInstances], ?_, by simp⟩
      simp [CreateOrGetMachine, hid, hlook, getByTagsOrCreate, htags, hci]

/-- C1 witness: an id-lookup hit at i-1 is returned with one describe call
although the tag response holds a different instance i-2. -/
theorem C1_witness :
    CreateOrGetMachine cpScope ({ cpMachine with instanceID := some "i-1" })
        ({ okEnv with describeByIdResp := oneInstanceResp ("i-1"),
                      describeByTagsResp := oneInstanceResp ("i-2") })
      = (.ok (SDKToInstance { instanceId := "i-1" }), [Call.describeInstances]) :=
  C1_create_or_get.1 cpScope ({ cpMachine with instanceID := some "i-1" })
    ({ okEnv with describeByIdResp := oneInstanceResp ("i-1"),
                  describeByTagsResp := oneInstanceResp ("i-2") })
    "i-1" (SDKToInstance { instanceId := "i-1" }) rfl rfl

/-- C10: with subnet filters and no explicit subnet id, a describe-subnets
call that succeeds with zero matching subnets is not an error at that
point: placement succeeds with a network interface whose subnet id is the
empty string, and createInstance proceeds into the post-placement stage,
toward the create call. -/
theorem C10_zero_matching_subnets (s : ClusterScope) (m : MachineScope) (env : Env)
    (sub : SubnetRef) (hsub : m.subnet = some sub) (hid : sub.id = none)
    (haz : m.availabilityZone = "" ∨ env.describeAvailabilityZones = .ok ())
    (hds : env.describeSubnets = .ok []) :
    (∀ inp : Instance, ∃ tr,
        resolvePlacement s m env inp
          = (.ok (inp, { deviceIndex := some m.deviceIndex,
                         associatePublicIpAddress := m.publicIP,
                         subnetId := some "", groups := [] }), tr))
      ∧ ∀ prof img : String,
          m.iamInstanceProfile.id = some prof → m.ami.id = some img →
          (createInstance s m env).1
            = (afterPlacement s m env (initialInput s m prof img)
                { deviceIndex := some m.deviceIndex,
                  associatePublicIpAddress := m.publicIP,
                  subnetId := some "", groups := [] }).1 := by
  have hplace : ∀ inp : Instance, ∃ tr,
      resolvePlacement s m env inp
        = (.ok (inp, { deviceIndex := some m.deviceIndex,
                       associatePublicIpAddress := m.publicIP,
                       subnetId := some "", groups := [] }), tr) := by
    intro inp
    by_cases hazb : m.availabilityZone = ""
    · refine ⟨[Call.describeSubnets], ?_⟩
      simp [resolvePlacement, hsub, hid, hazb, hds]
    · rcases haz with haz | haz
      · exact absurd haz hazb
      · refine ⟨[Call.describeAvailabilityZones, Call.describeSubnets], ?_⟩
        simp [resolvePlacement, hsub, hid, hazb, haz, hds]
  refine ⟨hplace, ?_⟩
  intro prof img hprof hami
  obtain ⟨tr, htr⟩ := hplace (initialInput s m prof img)
  have e1 : resolveIAMProfile m = Except.ok prof := by simp [resolveIAMProfile, hprof]
  have e2 : resolveImage m env = (Except.ok img, ([] : List Call)) := by
    simp [resolveImage, hami]
  rcases hap : afterPlacement s m env (initialInput s m prof img)
      { deviceIndex := some m.deviceIndex, associatePublicIpAddress := m.publicIP,
        subnetId := some "", groups := [] } with ⟨r3, tr3⟩
  simp [createInstance, e1, e2, htr, hap]

/-- C10 witness: filterMachine under okEnv (whose describe-subnets response
is an empty list): placement yields the empty-string subnet interface and
the run proceeds past placement. -/
theorem C10_witness :
    (∀ inp : Instance, ∃ tr,
        resolvePlacement cpScope filterMachine okEnv inp
          = (.ok (inp, { deviceIndex := some filterMachine.deviceIndex,
                         associatePublicIpAddress := filterMachine.publicIP,
                         subnetId := some "", groups := [] }), tr))
      ∧ ∀ prof img : String,
          filterMachine.iamInstanceProfile.id = some prof →
          filterMachine.ami.id = some img →
          (createInstance cpScope filterMachine okEnv).1
            = (afterPlacement cpScope filterMachine okEnv
                (initialInput cpScope filterMachine prof img)
                { deviceIndex := some filterMachine.deviceIndex,
                  associatePublicIpAddress := filterMachine.publicIP,
                  subnetId := some "", groups := [] }).1 :=
  C10_zero_matching_subnets cpScope filterMachine okEnv
    { id := none, filters := [{ name := "tag:usage", values := ["private"] }] }
    rfl rfl (Or.inl rfl) rfl

/-- Under a control-plane role and a cluster config with an empty CA
private key, the control-plane branch always fails as a failed dependency
and issues no call. -/
theorem cpBranch_missing_key (s : ClusterScope) (m : MachineScope) (env : Env)
    (cfg : ClusterConfig) (inp : Instance) (hrole : m.role = "controlplane")
    (hcfg : s.clusterConfig = some cfg) (hkey : cfg.caPrivateKey = "") :
    ∃ msg, cpBranch s m env inp = (.error (.failedDependency msg), []) := by
  unfold cpBranch
  rw [if_pos hrole, hcfg]
  cases hsg : s.securityGroupsByRole.controlPlaneSG with
  | none =>
    exact ⟨"failed to run controlplane, security group not available", by simp [hsg]⟩
  | some sg =>
    exact ⟨"failed to run controlplane, missing CAPrivateKey", by simp [hsg, hkey]⟩

/-- After placement, a control-plane run with an empty CA private key fails
as a failed dependency and issues no call. -/
theorem afterPlacement_missing_key (s : ClusterScope) (m : MachineScope) (env : Env)
    (cfg : ClusterConfig) (inp : Instance) (ni : NetworkInterface)
    (hrole : m.role = "controlplane") (hcfg : s.clusterConfig = some cfg)
    (hkey : cfg.caPrivateKey = "") :
    ∃ msg, afterPlacement s m env inp ni = (.error (.failedDependency msg), []) := by
  unfold afterPlacement
  cases h1 : caCertMissing s with
  | true =>
    exact ⟨"failed to run controlplane, missing CACertificate", by simp [h1]⟩
  | false =>
    cases h2 : elbMissing s with
    | true =>
      exact ⟨"failed to run controlplane, APIServer ELB not available", by simp [h1, h2]⟩
    | false =>
      obtain ⟨msg, hcp⟩ := cpBranch_missing_key s m env cfg inp hrole hcfg hkey
      exact ⟨msg, by simp [h1, h2, hcp]⟩

/-- The image-resolution step never issues the create call. -/
theorem runInstances_notin_resolveImage (m : MachineScope) (env : Env) :
    Call.runInstances ∉ (resolveImage m env).2 := by
  unfold resolveImage
  cases m.ami.id with
  | some img => simp
  | none => cases env.defaultAMILookup <;> simp

/-- The placement step never issues the create call. -/
theorem runInstances_notin_resolvePlacement (s : ClusterScope) (m : MachineScope)
    (env : Env) (inp : Instance) :
    Call.runInstances ∉ (resolvePlacement s m env inp).2 := by
  unfold resolvePlacement
  cases hsub : m.subnet with
  | none => cases hps : s.privateSubnetIDs <;> simp [hps]
  | some sub =>
    cases hsid : sub.id with
    | some sid => simp [hsid]
    | none =>
      by_cases hazb : m.availabilityZone = "" <;>
        cases hdaz : env.describeAvailabilityZones <;>
          cases hdss : env.describeSubnets <;> simp [hsid, hazb, hdaz, hdss]

/-- A control-plane createInstance run with an empty CA private key never
reaches the create call and never returns an instance. -/
theorem createInstance_missing_key_no_create (s : ClusterScope) (m : MachineScope)
    (env : Env) (cfg : ClusterConfig) (hrole : m.role = "controlplane")
    (hcfg : s.clusterConfig = some cfg) (hkey : cfg.caPrivateKey = "") :
    Call.runInstances ∉ (createInstance s m env).2
      ∧ ∃ e, (createInstance s m env).1 = .error e := by
  cases hiam : resolveIAMProfile m with
  | error e =>
    refine ⟨?_, ⟨e, ?_⟩⟩ <;> simp [createInstance, hiam]
  | ok prof =>
    rcases hri : resolveImage m env with ⟨rimg, tr1⟩
    have h1 : Call.runInstances ∉ tr1 := by
      have h0 := runInstances_notin_resolveImage m env
      rw [hri] at h0
      exact h0
    cases rimg with
    | error e =>
      refine ⟨?_, ⟨e, ?_⟩⟩ <;> simp [createInstance, hiam, hri, h1]
    | ok img =>
      rcases hrp : resolvePlacement s m env (initialInput s m prof img) with ⟨rpl, tr2⟩
      have h2 : Call.runInstances ∉ tr2 := by
        have h0 := runInstances_notin_resolvePlacement s m env (initialInput s m prof img)
        rw [hrp] at h0
        exact h0
      cases rpl with
      | error e =>
        refine ⟨?_, ⟨e, ?_⟩⟩ <;> simp [createInstance, hiam, hri, hrp, h1, h2]
      | ok pr =>
        obtain ⟨inp2, ni⟩ := pr
        obtain ⟨msg, hap⟩ := afterPlacement_missing_key s m env cfg inp2 ni hrole hcfg hkey
        refine ⟨?_, ⟨.failedDependency msg, ?_⟩⟩ <;>
          simp [createInstance, hiam, hri, hrp, hap, h1, h2]

/-- With a usable profile reference and successful image, availability-zone
and subnet lookups, the control-plane run with an empty CA private key
fails as a failed dependency. -/
theorem createInstance_missing_key_fd (s : ClusterScope) (m : MachineScope) (env : Env)
    (cfg : ClusterConfig) (hrole : m.role = "controlplane")
    (hcfg : s.clusterConfig = some cfg) (hkey : cfg.caPrivateKey = "")
    (hiam : m.iamInstanceProfile.id.isSome ∨ m.iamInstanceProfile.arn.isSome)
    (hami : m.ami.id.isSome ∨ ∃ img, env.defaultAMILookup = .ok img)
    (haz : m.availabilityZone = "" ∨ env.describeAvailabilityZones = .ok ())
    (hds : ∃ sids, env.describeSubnets = .ok sids) :
    ∃ msg, (createInstance s m env).1 = .error (.failedDependency msg) := by
  have hprof : ∃ prof, resolveIAMProfile m = .ok prof := by
    unfold resolveIAMProfile
    rcases hiam with h | h
    · obtain ⟨v, hv⟩ := Option.isSome_iff_exists.1 h
      exact ⟨v, by simp [hv]⟩
    · obtain ⟨a, ha⟩ := Option.isSome_iff_exists.1 h
      cases hidv : m.iamInstanceProfile.id with
      | some v => exact ⟨v, by simp⟩
      | none => exact ⟨a, by simp [ha]⟩
  have himg : ∃ img tr1, resolveImage m env = (.ok img, tr1) := by
    unfold resolveImage
    rcases hami with h | h
    · obtain ⟨img, hv⟩ := Option.isSome_iff_exists.1 h
      exact ⟨img, [], by simp [hv]⟩
    · obtain ⟨img, hv⟩ := h
      cases hamiid : m.ami.id with
      | some i2 => exact ⟨i2, [], by simp⟩
      | none => exact ⟨img, [Call.describeImages], by simp [hv]⟩
  have hplc : ∀ inp : Instance,
      (∃ pr tr2, resolvePlacement s m env inp = (.ok pr, tr2))
        ∨ ∃ msg, resolvePlacement s m env inp = (.error (.failedDependency msg), []) := by
    intro inp
    unfold resolvePlacement
    cases hsub : m.subnet with
    | none =>
      cases hps : s.privateSubnetIDs with
      | nil =>
        right
        exact ⟨"failed to run machine " ++ m.name ++ ", no subnets available", by simp [hps]⟩
      | cons sn rest =>
        left
        exact ⟨({ inp with subnetID := sn }, {}), [], by simp [hps]⟩
    | some sub =>
      cases hsid : sub.id with
      | some sid =>
        left
        exact ⟨(inp, { deviceIndex := some m.deviceIndex,
                       associatePublicIpAddress := m.publicIP,
                       subnetId := some sid, groups := [] }), [], by simp [hsid]⟩
      | none =>
        obtain ⟨sids, hsids⟩ := hds
        by_cases hazb : m.availabilityZone = ""
        · left
          exact ⟨(inp, { deviceIndex := some m.deviceIndex,
                         associatePublicIpAddress := m.publicIP,
                         subnetId := some (sids.headD ""), groups := [] }),
                 [Call.describeSubnets], by simp [hsid, hazb, hsids]⟩
        · rcases haz with haz | haz
          · exact absurd haz hazb
          · left
            exact ⟨(inp, { deviceIndex := some m.deviceIndex,
                           associatePublicIpAddress := m.publicIP,
                           subnetId := some (sids.headD ""), groups := [] }),
                   [Call.describeAvailabilityZones, Call.describeSubnets],
                   by simp [hsid, hazb, haz, hsids]⟩
  obtain ⟨prof, hp⟩ := hprof
  obtain ⟨img, tr1, hi⟩ := himg
  rcases hplc (initialInput s m prof img) with ⟨⟨inp2, ni⟩, tr2, h⟩ | ⟨msg, h⟩
  · obtain ⟨msg, hap⟩ := afterPlacement_missing_key s m env cfg inp2 ni hrole hcfg hkey
    exact ⟨msg, by simp [createInstance, hp, hi, h, hap]⟩
  · exact ⟨msg, by simp [createInstance, hp, hi, h]⟩

/-- C2 amended: every createInstance run for a control-plane machine whose
cluster config holds an empty CA private key issues no create call and
returns no instance; whenever additionally the IAM profile reference is
usable and the image, availability-zone and subnet lookups succeed, the
returned error is a failed-dependency error. -/
theorem C2_missing_key (s : ClusterScope) (m : MachineScope) (env : Env)
    (cfg : ClusterConfig) (hrole : m.role = "controlplane")
    (hcfg : s.clusterConfig = some cfg) (hkey : cfg.caPrivateKey = "") :
    Call.runInstances ∉ (createInstance s m env).2
      ∧ (∃ e, (createInstance s m env).1 = .error e)
      ∧ ((m.iamInstanceProfile.id.isSome ∨ m.iamInstanceProfile.arn.isSome) →
          (m.ami.id.isSome ∨ ∃ img, env.defaultAMILookup = .ok img) →
          (m.availabilityZone = "" ∨ env.describeAvailabilityZones = .ok ()) →
          (∃ sids, env.describeSubnets = .ok sids) →
          ∃ msg, (createInstance s m env).1 = .error (.failedDependency msg)) :=
  ⟨(createInstance_missing_key_no_create s m env cfg hrole hcfg hkey).1,
   (createInstance_missing_key_no_create s m env cfg hrole hcfg hkey).2,
   fun h1 h2 h3 h4 => createInstance_missing_key_fd s m env cfg hrole hcfg hkey h1 h2 h3 h4⟩

/-- C2 counterexample: a control-plane machine with an empty CA private key
whose default-AMI lookup fails — the run returns that lookup error, which
is not a failed-dependency error, so the claimed error class is wrong on
this run (no create call is issued on it either). -/
theorem C2_counterexample :
    cpMachine.role = "controlplane"
      ∧ Option.map ClusterConfig.caPrivateKey cpScope.clusterConfig = some ""
      ∧ (createInstance cpScope cpMachine amiFailEnv).1
          = .error (.goError ("ami lookup failed"))
      ∧ resultFailedDep (createInstance cpScope cpMachine amiFailEnv).1 = false := by
  refine ⟨rfl, rfl, by decide, by decide⟩

/-- C2 witness: the amended statement at a concrete control-plane machine —
no create call is issued and the error is a failed dependency. -/
theorem C2_missing_key_witness :
    Call.runInstances ∉ (createInstance cpScope cpMachine okEnv).2
      ∧ ∃ msg, (createInstance cpScope cpMachine okEnv).1
          = Except.error (SvcErr.failedDependency msg) :=
  ⟨(C2_missing_key cpScope cpMachine okEnv { caCertificate := "cert-pem", caPrivateKey := "" }
      rfl rfl rfl).1,
   (C2_missing_key cpScope cpMachine okEnv { caCertificate := "cert-pem", caPrivateKey := "" }
      rfl rfl rfl).2.2 (Or.inl rfl) (Or.inr ⟨"ami-1", rfl⟩) (Or.inl rfl) ⟨[], rfl⟩⟩

/-- C5 witness: the amended parts evaluated at concrete maps. -/
theorem C5_equals_witness :
    tags.Map.Equals sampleTagMapA sampleTagMapA = true
      ∧ tags.Map.Equals nilTagMap emptyTagMap = tags.Map.Equals emptyTagMap nilTagMap
      ∧ tags.Map.Equals nilTagMap nilTagMap = true
      ∧ tags.Map.Equals nilTagMap emptyTagMap = false :=
  ⟨C5_equals_amended.1 sampleTagMapA,
   C5_equals_amended.2.1 nilTagMap emptyTagMap,
   C5_equals_amended.2.2.1 nilTagMap nilTagMap rfl rfl rfl,
   C5_equals_amended.2.2.2 nilTagMap emptyTagMap (by decide)⟩

end AWSModel
